import Mathlib

/-!
Verification of the SQLite3 LoopBack connector (`lib/sqlite3.js`,
`lib/migration.js`) against its natural-language specification.

The connector's value-coercion and DDL-building layers are shallowly
embedded: JavaScript runtime values are the inductive `JsVal`, fallible
builders return `Except String _`, and statement sequences are `List
String`.  External JavaScript facilities used by the connector (the
`moment` date parser, `JSON.parse` validity, the base-class identifier
helpers of `loopback-connector`) are not part of the repository; they are
modelled from the specification and documented as such at their
definitions.  Everything else is translated from the source files.
-/

namespace LBSqlite3

/-- A JavaScript runtime value as the connector manipulates it: primitives,
the `NaN` number, the connector's `InvalidParam` sentinel object, a JS
`Error` object, a `new Date(v)` object (recorded by its constructor
argument) and a structured object/array (recorded by its JSON
serialization).  Numbers are modelled as integers, which covers every
numeric value the connector produces (epoch milliseconds, 0/1 booleans,
numeric defaults). -/
inductive JsVal where
  | null
  | undefined
  | bool (b : Bool)
  | num (n : Int)
  | nan
  | str (s : String)
  | invalidP (msg : String)
  | errObj (msg : String)
  | jsDate (arg : JsVal)
  | jsObject (json : String)
  deriving DecidableEq

/-- JS `value == null` (loose equality): true exactly for `null` and
`undefined`. -/
def jsEqNull : JsVal → Bool
  | JsVal.null => true
  | JsVal.undefined => true
  | _ => false

/-- JS truthiness: `false`, `0`, `NaN`, the empty string, `null` and
`undefined` are falsy; every object is truthy. -/
def jsTruthy : JsVal → Bool
  | JsVal.null => false
  | JsVal.undefined => false
  | JsVal.bool b => b
  | JsVal.num n => if n = 0 then false else true
  | JsVal.nan => false
  | JsVal.str s => if s = "" then false else true
  | JsVal.invalidP _ => true
  | JsVal.errObj _ => true
  | JsVal.jsDate _ => true
  | JsVal.jsObject _ => true

/-- JS `ToString`.  `Error` objects stringify as `Error: <message>`; plain
objects (the `InvalidParam` sentinel) as `[object Object]`; the remaining
object forms are modelled coarsely (no claim stringifies them). -/
def jsToString : JsVal → String
  | JsVal.null => "null"
  | JsVal.undefined => "undefined"
  | JsVal.bool b => if b then "true" else "false"
  | JsVal.num n => toString n
  | JsVal.nan => "NaN"
  | JsVal.str s => s
  | JsVal.invalidP _ => "[object Object]"
  | JsVal.errObj m => "Error: " ++ m
  | JsVal.jsDate _ => "[object Date]"
  | JsVal.jsObject _ => "[object Object]"

/-- The numeric value of a digit list, when every character is a decimal
digit. -/
def digitsVal (ds : List Char) : Option Nat :=
  if ds.isEmpty then none
  else if ds.all Char.isDigit then
    some (ds.foldl (fun a c => a * 10 + (c.toNat - 48)) 0)
  else none

/-- ASCII whitespace, for the string-trimming JS performs in `ToNumber`. -/
def isWsChar (c : Char) : Bool :=
  c == ' ' || c == '\t' || c == '\n' || c == '\r'

def trimChars (l : List Char) : List Char :=
  ((l.dropWhile isWsChar).reverse.dropWhile isWsChar).reverse

/-- JS `ToNumber` on a string, restricted to the optionally signed decimal
integer literals the connector actually handles (`none` means `NaN`).  A
trimmed empty string converts to `0`, as in JS. -/
def strToNumber (s : String) : Option Int :=
  match trimChars s.data with
  | [] => some 0
  | '-' :: ds =>
    (match digitsVal ds with
     | some n => some (-(Int.ofNat n))
     | none => none)
  | '+' :: ds =>
    (match digitsVal ds with
     | some n => some (Int.ofNat n)
     | none => none)
  | ds =>
    (match digitsVal ds with
     | some n => some (Int.ofNat n)
     | none => none)

/-- JS `ToNumber` over `JsVal` (`none` means `NaN`). -/
def jsToNumberOpt : JsVal → Option Int
  | JsVal.null => some 0
  | JsVal.undefined => none
  | JsVal.bool b => some (if b then 1 else 0)
  | JsVal.num n => some n
  | JsVal.nan => none
  | JsVal.str s => strToNumber s
  | JsVal.invalidP _ => none
  | JsVal.errObj _ => none
  | JsVal.jsDate _ => none
  | JsVal.jsObject _ => none

/-- The JS global `isNaN(value)`: `ToNumber(value)` is `NaN`. -/
def jsIsNaN (v : JsVal) : Bool := (jsToNumberOpt v).isNone

/-- JS `Number(value)` as a `JsVal` (a finite number or `NaN`). -/
def jsNumber (v : JsVal) : JsVal :=
  match jsToNumberOpt v with
  | some n => JsVal.num n
  | none => JsVal.nan

/-- `String.prototype.toLowerCase`. -/
def jsToLower (s : String) : String := String.mk (s.data.map Char.toLower)

/-- `String.prototype.toUpperCase`. -/
def jsToUpper (s : String) : String := String.mk (s.data.map Char.toUpper)

/-- `String.prototype.trim`. -/
def jsTrim (s : String) : String := String.mk (trimChars s.data)

/-- `Array.prototype.join(sep)`. -/
def joinWith (sep : String) : List String → String
  | [] => ""
  | [x] => x
  | x :: rest => x ++ sep ++ joinWith sep rest

/-- `String.prototype.split(sep)` for a one-character separator. -/
def splitOnChar (sep : Char) : List Char → List (List Char)
  | [] => [[]]
  | c :: rest =>
    let r := splitOnChar sep rest
    if c = sep then [] :: r
    else
      match r with
      | [] => [[c]]
      | g :: gs => (c :: g) :: gs

/-- Civil-calendar day count since 1970-01-01 (valid for years from 1970 on,
which is all the model needs); the standard era/year-of-era computation. -/
def daysFromCivil (y m d : Nat) : Nat :=
  let yAdj := if m ≤ 2 then y - 1 else y
  let era := yAdj / 400
  let yoe := yAdj % 400
  let mp := if m > 2 then m - 3 else m + 9
  let doy := (153 * mp + 2) / 5 + d - 1
  let doe := yoe * 365 + yoe / 4 - yoe / 100 + doy
  era * 146097 + doe - 719468

/-- Modelled from the spec: the external `moment(value)` calendar-date
parser ("a string parseable as a calendar date/time").  The model accepts
ISO `YYYY-MM-DD` dates from 1970 on and yields `moment(...).unix()`, the
epoch-second count; every other string is an invalid parse (`none`).  The
connector only multiplies the result by 1000 or tests validity. -/
def momentParse (s : String) : Option Int :=
  match splitOnChar '-' s.data with
  | [ys, ms, ds] =>
    (match digitsVal ys, digitsVal ms, digitsVal ds with
     | some y, some m, some d =>
       if ys.length = 4 ∧ ms.length = 2 ∧ ds.length = 2 ∧ 1970 ≤ y
          ∧ 1 ≤ m ∧ m ≤ 12 ∧ 1 ≤ d ∧ d ≤ 31 then
         some (Int.ofNat (daysFromCivil y m d * 86400))
       else none
     | _, _, _ => none)
  | _ => none

/-- Recognizer state for the JSON validity model: a full value, the tail of
an array, or the tail of an object. -/
inductive JMode where
  | val
  | elems
  | members

def jsonSkipWs (l : List Char) : List Char := l.dropWhile isWsChar

/-- One JSON string body: everything up to the next unescaped-free quote
(escape sequences are not modelled; no claim exercises JSON values). -/
def jsonStrBody : List Char → Option (List Char)
  | [] => none
  | c :: rest => if c = '"' then some rest else jsonStrBody rest

/-- A JSON number: optional minus, digits, optional fraction. -/
def jsonNumBody (l : List Char) : Option (List Char) :=
  let l1 := match l with | '-' :: r => r | _ => l
  let ds := l1.takeWhile Char.isDigit
  if ds.isEmpty then none
  else
    match l1.dropWhile Char.isDigit with
    | '.' :: r2 =>
      if (r2.takeWhile Char.isDigit).isEmpty then none
      else some (r2.dropWhile Char.isDigit)
    | r => some r

/-- Modelled from the spec: syntactic validity of JSON text (the external
`JSON.parse`, which the connector only uses as a validity check).
Fuel-indexed recognizer returning the unconsumed remainder on success. -/
def jsonRun : Nat → JMode → List Char → Option (List Char)
  | 0, _, _ => none
  | Nat.succ fuel, JMode.val, l =>
    (match jsonSkipWs l with
     | 'n' :: 'u' :: 'l' :: 'l' :: r => some r
     | 't' :: 'r' :: 'u' :: 'e' :: r => some r
     | 'f' :: 'a' :: 'l' :: 's' :: 'e' :: r => some r
     | '"' :: r => jsonStrBody r
     | '[' :: r =>
       (match jsonSkipWs r with
        | ']' :: r2 => some r2
        | r2 => jsonRun fuel JMode.elems r2)
     | c :: r =>
       if c = '\x7b' then
         (match jsonSkipWs r with
          | c2 :: r2 => if c2 = '\x7d' then some r2
                        else jsonRun fuel JMode.members (c2 :: r2)
          | [] => none)
       else jsonNumBody (c :: r)
     | [] => none)
  | Nat.succ fuel, JMode.elems, l =>
    (match jsonRun fuel JMode.val l with
     | none => none
     | some r =>
       (match jsonSkipWs r with
        | ',' :: r2 => jsonRun fuel JMode.elems r2
        | ']' :: r2 => some r2
        | _ => none))
  | Nat.succ fuel, JMode.members, l =>
    (match jsonSkipWs l with
     | '"' :: r =>
       (match jsonStrBody r with
        | none => none
        | some r2 =>
          (match jsonSkipWs r2 with
           | ':' :: r3 =>
             (match jsonRun fuel JMode.val r3 with
              | none => none
              | some r4 =>
                (match jsonSkipWs r4 with
                 | ',' :: r5 => jsonRun fuel JMode.members r5
                 | c :: r5 => if c = '\x7d' then some r5 else none
                 | [] => none))
           | _ => none))
     | _ => none)

/-- Whole-text JSON validity (`JSON.parse(text)` succeeds). -/
def jsonValid (s : String) : Bool :=
  match jsonRun (2 * s.data.length + 4) JMode.val s.data with
  | some r => (jsonSkipWs r).isEmpty
  | none => false

/-- Modelled from the spec: `JSON.stringify` for the value forms the
connector can receive; structured values are recorded by their JSON text
(no claim exercises this branch). -/
def jsonStringify : JsVal → String
  | JsVal.jsObject j => j
  | JsVal.str s => "\"" ++ s ++ "\""
  | JsVal.num n => toString n
  | JsVal.nan => "null"
  | JsVal.bool b => if b then "true" else "false"
  | JsVal.null => "null"
  | JsVal.undefined => "undefined"
  | JsVal.invalidP _ => "\x7b\x7d"
  | JsVal.errObj _ => "\x7b\x7d"
  | JsVal.jsDate _ => "\"[object Date]\""

/-- Connector-specific metadata under `property.sqlite3`: explicit column
type/length overrides and the declared default literal
(`property.sqlite3.dbDefault`). -/
structure Sqlite3Meta where
  dbDefault : Option JsVal := none
  dataType : Option String := none
  dataLength : Option Nat := none
  deriving DecidableEq

/-- A property descriptor as the connector reads it: the semantic type's
name (`property.type.name`), the identifier flag (`property.id`), optional
connector metadata, optional lengths, and the required flag consulted by
nullability. -/
structure Property where
  typeName : String
  id : Bool := false
  sqlite3 : Option Sqlite3Meta := none
  length : Option Nat := none
  limit : Option Nat := none
  required : Bool := false
  index : Bool := false
  deriving DecidableEq

/-- `_convertBoolean` (lib/sqlite3.js:367-376): membership of the literal
in the canonical true/false lists (strict-equality `indexOf`), else a JS
`Error` carrying the shown message. -/
def convertBoolean (value : JsVal) : Except String Int :=
  if value ∈ [JsVal.str "t", JsVal.str "T", JsVal.str "y", JsVal.str "Y",
               JsVal.str "1", JsVal.num 1, JsVal.bool true] then
    Except.ok 1
  else if value ∈ [JsVal.str "f", JsVal.str "F", JsVal.str "n", JsVal.str "N",
                   JsVal.str "0", JsVal.num 0, JsVal.bool false] then
    Except.ok 0
  else
    Except.error ("SQLITE3: Invalid boolean default: " ++ jsToString value)

/-- `SQLite3.prototype.escapeName` (lib/sqlite3.js:232-239).  The source
computes `name.replace(/["]/g, itself doubled)` but discards the result
(strings are immutable in JS), so only the outer quotes are added. -/
def escapeName (name : String) : String :=
  if name = "" then name
  else "\"" ++ name ++ "\""

/-- The character loop of the legacy `escapeIdentifier`: each internal
double quote is emitted twice, and the closing quote is appended. -/
def escapeIdentifierLoop : List Char → List Char
  | [] => ['"']
  | c :: rest =>
    if c = '"' then c :: c :: escapeIdentifierLoop rest
    else c :: escapeIdentifierLoop rest

/-- `escapeIdentifier` from the legacy connector variant: wraps in double
quotes and doubles each internal double quote. -/
def escapeIdentifier (str : String) : String :=
  String.mk ('"' :: escapeIdentifierLoop str.data)

/-- `SQLite3.prototype.dbName` (lib/sqlite3.js:220-225): lower-case, with
the falsy-name passthrough. -/
def dbName (name : String) : String :=
  if name = "" then name else jsToLower name

/-- `SQLite3.prototype.escapeValue` (lib/sqlite3.js:241-249): every branch
returns the value unchanged. -/
def escapeValue (value : JsVal) : JsVal :=
  if (match value with | JsVal.str _ => true | _ => false) then value
  else if (match value with
           | JsVal.num _ => true | JsVal.nan => true | JsVal.bool _ => true
           | _ => false) then value
  else value

/-- `SQLite3.prototype._buildColumnType` (lib/sqlite3.js:435-458): the
inferred SQL column type from the property's semantic type (the `switch`
is embedded as the equivalent strict-equality chain). -/
def buildColumnType (p : Property) : String :=
  if p.typeName = "Number" then (if p.id then "INTEGER" else "REAL")
  else if p.typeName = "Boolean" then "INTEGER"
  else if p.typeName = "Date" then "INTEGER"
  else if p.typeName = "String" then "TEXT"
  else if p.typeName = "GeoPoint" then "TEXT"
  else if p.typeName = "Point" then "TEXT"
  else if p.typeName = "List" then "TEXT"
  else if p.typeName = "Array" then "TEXT"
  else if p.typeName = "Object" then "TEXT"
  else if p.typeName = "JSON" then "TEXT"
  else "TEXT"

/-- `SQLite3.prototype._columnDataType` (lib/sqlite3.js:417-433): an
explicit override type is used only together with a length
(`TYPE(length)`); otherwise the inferred type. -/
def columnDataType (p : Property) : String :=
  let colType := match p.sqlite3 with
    | some meta => meta.dataType.map jsToUpper
    | none => none
  let colLength := (match p.sqlite3 with
    | some meta => meta.dataLength
    | none => none) <|> p.length <|> p.limit
  match colType, colLength with
  | some t, some l => t ++ "(" ++ toString l ++ ")"
  | _, _ => buildColumnType p

/-- `SQLite3.prototype._getDefaultClause` (lib/sqlite3.js:378-415).  The
guard returns an empty clause when the property, its metadata or a falsy
default literal is absent.  In the Boolean branch the source computes
`'DEFAULT ' + _convertBoolean(value)`: when `_convertBoolean` yields an
`Error` object, JS string concatenation coerces it via `jsToString`, so the
branch always produces an `ok` string.  The Date branch keeps the source's
unreachable inner `isNaN` test and its inverted `isValid()` test: an
invalid parse has `unix() = NaN`, so `' DEFAULT ' + NaN*1000` is the
string ` DEFAULT NaN`, while a valid parse falls through to the error. -/
def getDefaultClause (property : Option Property) : Except String String :=
  match property with
  | none => Except.ok ""
  | some p =>
    match p.sqlite3 with
    | none => Except.ok ""
    | some meta =>
      match meta.dbDefault with
      | none => Except.ok ""
      | some value =>
        if jsTruthy value = false then Except.ok ""
        else if p.typeName = "Number" then
          (if jsIsNaN value = true then
             Except.error ("Invalid numeric default: " ++ jsToString value)
           else Except.ok (" DEFAULT " ++ jsToString (jsNumber value)))
        else if p.typeName = "Boolean" then
          Except.ok ("DEFAULT " ++
            (match convertBoolean value with
             | Except.ok n => jsToString (JsVal.num n)
             | Except.error m => jsToString (JsVal.errObj m)))
        else if p.typeName = "Date" then
          (if value = JsVal.str "now" then
             Except.ok " DEFAULT (CAST(STRFTIME(\x27%s\x27, \x27now\x27) AS INTEGER)*1000)"
           else if jsIsNaN value = false then
             Except.ok (" DEFAULT " ++ jsToString value)
           else
             match value with
             | JsVal.str s =>
               (if jsIsNaN (JsVal.str s) = false then
                  Except.ok (" DEFAULT " ++ jsToString (jsNumber (JsVal.str s)))
                else
                  match momentParse s with
                  | none => Except.ok " DEFAULT NaN"
                  | some _ => Except.error ("Invalid date default: " ++ s))
             | _ => Except.error ("Invalid date default: " ++ jsToString value))
        else if p.typeName = "String" then
          Except.ok ("DEFAULT \"" ++ jsToString (escapeValue value) ++ "\"")
        else
          Except.error ("Default value for " ++ p.typeName ++ " is not supported")

/-- `SQLite3.prototype.toColumnValue` (lib/sqlite3.js:513-556).  A loosely
null value maps to storage NULL before any type dispatch; with no property
descriptor the value passes through.  The `switch` on `property.type.name`
is embedded as the equivalent strict-equality chain; the Boolean branch
returns whatever `_convertBoolean` yields, an encoding **or the Error
object itself**; the Date branch keeps the source's inverted `isValid()`
test (`moment(...).unix()` is `NaN` on an invalid parse, and `NaN * 1000`
is `NaN`). -/
def toColumnValue (property : Option Property) (value : JsVal) : JsVal :=
  if jsEqNull value = true then JsVal.null
  else
    match property with
    | none => value
    | some p =>
      if p.typeName = "Number" then
        (if jsIsNaN value = true then
           JsVal.invalidP ("SQLITE3: Invalid number: " ++ jsToString value)
         else jsNumber value)
      else if p.typeName = "Boolean" then
        (match convertBoolean value with
         | Except.ok n => JsVal.num n
         | Except.error m => JsVal.errObj m)
      else if p.typeName = "String" then value
      else if p.typeName = "GeoPoint" ∨ p.typeName = "Point" ∨ p.typeName = "List"
              ∨ p.typeName = "Object" ∨ p.typeName = "ModelConstructor" then
        JsVal.str (jsonStringify value)
      else if p.typeName = "JSON" then
        (if jsonValid (jsToString value) = true then JsVal.str (jsToString value)
         else JsVal.invalidP ("SQLITE3: Invalid JSON: " ++ jsToString value))
      else if p.typeName = "Date" then
        (if jsIsNaN value = false then jsNumber value
         else
           match value with
           | JsVal.str s =>
             (match momentParse s with
              | none => JsVal.nan
              | some _ => JsVal.invalidP ("SQLITE3: Invalid JSON: " ++ s))
           | _ => JsVal.invalidP ("SQLITE3: Invalid JSON: " ++ jsToString value))
      else value

/-- `SQLite3.prototype.fromColumnValue` (lib/sqlite3.js:558-587).  A stored
NULL or a missing descriptor passes through; the Boolean branch is the
strict-equality disjunction of the source; composite types re-parse their
JSON text (the source would throw on malformed text — recorded as an
`errObj`); Date reconstructs `new Date(value)`. -/
def fromColumnValue (property : Option Property) (value : JsVal) : JsVal :=
  if value = JsVal.null ∨ property = none then value
  else
    match property with
    | none => value
    | some p =>
      if p.typeName = "Number" then jsNumber value
      else if p.typeName = "Boolean" then
        JsVal.bool (decide (value = JsVal.str "Y" ∨ value = JsVal.str "y"
          ∨ value = JsVal.str "T" ∨ value = JsVal.str "t"
          ∨ value = JsVal.str "1" ∨ value = JsVal.num 1))
      else if p.typeName = "String" then JsVal.str (jsToString value)
      else if p.typeName = "GeoPoint" ∨ p.typeName = "Point" ∨ p.typeName = "List"
              ∨ p.typeName = "Array" ∨ p.typeName = "Object"
              ∨ p.typeName = "ModelConstructor" then
        (if jsonValid (jsToString value) = true then JsVal.jsObject (jsToString value)
         else JsVal.errObj ("SyntaxError: JSON.parse: " ++ jsToString value))
      else if p.typeName = "JSON" then JsVal.str (jsToString value)
      else if p.typeName = "Date" then JsVal.jsDate value
      else value

/-- Whether a value is the connector's `InvalidParam` sentinel
(`params[p] instanceof InvalidParam`). -/
def isInvalidParam : JsVal → Bool
  | JsVal.invalidP _ => true
  | _ => false

/-- The parameter-sanitizing loop of `SQLite3.prototype.executeSQL`
(lib/sqlite3.js:146-152): every `InvalidParam` element is replaced by
`null` in place; the resulting list is what is bound to the statement. -/
def executeSQLParams (params : List JsVal) : List JsVal :=
  params.map (fun p => match p with
    | JsVal.invalidP _ => JsVal.null
    | _ => p)

/-- Modelled from the spec: the base-class `isNullable` helper of the
excluded ORM layer — "an identifier property is never nullable", and a
required property is NOT NULL. -/
def isNullable (p : Property) : Bool := !(p.required || p.id)

/-- Modelled from the spec: the base-class `column(model, propertyName)`
helper — "table/column naming ... is always lower-cased before touching
the catalog" (the embedded models carry no per-property column
override). -/
def columnName (propName : String) : String := jsToLower propName

/-- The column-list forms a model-level index declaration can take in
`settings.indexes`: a comma-delimited `columns` string, a `keys` array, a
`keys` object (whose keys are taken), or neither (skipped with a
diagnostic). -/
inductive IndexKeys where
  | columnsStr (s : String)
  | keysList (ks : List String)
  | keysMap (ks : List String)
  | unresolved

/-- A model definition as the migration engine reads it: the model name,
the ordered property map (`Object.keys` declaration order) and the
model-level named index settings. -/
structure ModelDef where
  name : String
  properties : List (String × Property)
  indexSettings : List (String × IndexKeys) := []

/-- Modelled from the spec: the base-class `tableEscaped(model)` helper —
the model name lower-cased and escaped. -/
def tableEscaped (m : ModelDef) : String := escapeName (dbName m.name)

/-- The local `escape` helper of lib/migration.js:100-102 (also used by
`_buildColumnIndexes`): `escapeName(name.toLowerCase())`. -/
def escapeLower (name : String) : String := escapeName (jsToLower name)

/-- `SQLite3.prototype._buildColumnDefinition` (lib/sqlite3.js:352-365):
the quoted column name, its SQL type, the default clause, NOT NULL for
non-nullable properties and PRIMARY KEY for identifiers; a default-clause
error aborts the build. -/
def buildColumnDefinition (propName : String) (p : Property) : Except String String :=
  match getDefaultClause (some p) with
  | Except.error e => Except.error e
  | Except.ok defaultClause =>
    Except.ok ("\"" ++ columnName propName ++ "\" " ++ columnDataType p
      ++ defaultClause
      ++ (if isNullable p = true then "" else " NOT NULL")
      ++ (if p.id = true then " PRIMARY KEY" else ""))

/-- The property loop of `buildColumnDefinitions` (lib/sqlite3.js:340-350):
build each column definition in declaration order, stopping at the first
error. -/
def buildColumnDefinitionsList : List (String × Property) → Except String (List String)
  | [] => Except.ok []
  | pr :: rest =>
    match buildColumnDefinition pr.1 pr.2 with
    | Except.error e => Except.error e
    | Except.ok line =>
      match buildColumnDefinitionsList rest with
      | Except.error e => Except.error e
      | Except.ok lines => Except.ok (line :: lines)

/-- `SQLite3.prototype.buildColumnDefinitions`: the comma-joined column
definitions of the model's properties. -/
def buildColumnDefinitions (m : ModelDef) : Except String String :=
  match buildColumnDefinitionsList m.properties with
  | Except.error e => Except.error e
  | Except.ok lines => Except.ok (joinWith "," lines)

/-- Column-list resolution for one model-level index declaration
(lib/sqlite3.js:483-498). -/
def resolveIndexColumns : IndexKeys → Option (List String)
  | IndexKeys.columnsStr s => some ((splitOnChar ',' s.data).map String.mk)
  | IndexKeys.keysList ks => some ks
  | IndexKeys.keysMap ks => some ks
  | IndexKeys.unresolved => none

/-- `SQLite3.prototype._buildColumnIndexes` (lib/sqlite3.js:460-511):
implicit per-property indexes for `index: true` properties, then
model-level named indexes with their column names lower-cased and
trimmed; an unresolvable column list is skipped. -/
def buildColumnIndexes (m : ModelDef) : List String :=
  (m.properties.filterMap (fun pr =>
    if pr.2.index = true then
      some ("CREATE INDEX IF NOT EXISTS " ++ escapeLower (m.name ++ "_" ++ pr.1)
        ++ " ON " ++ tableEscaped m ++ " (" ++ escapeLower pr.1 ++ ")")
    else none))
  ++ (m.indexSettings.filterMap (fun pr =>
    match resolveIndexColumns pr.2 with
    | none => none
    | some cols0 =>
      let cols := cols0.map (fun c => jsTrim (dbName c))
      some ("CREATE INDEX IF NOT EXISTS "
        ++ escapeLower (if pr.1 = "" then m.name ++ "_" ++ joinWith "_" cols else pr.1)
        ++ " ON " ++ tableEscaped m ++ " (" ++ joinWith "," (cols.map escapeLower) ++ ")")))

/-- `SQLite3.prototype.createTable` (lib/sqlite3.js:318-338) as the
statement sequence it executes: `CREATE TABLE <table> (<column defs>)`
followed by the index statements; a column-definition error aborts before
any statement. -/
def createTableStatements (m : ModelDef) : Except String (List String) :=
  match buildColumnDefinitions m with
  | Except.error e => Except.error e
  | Except.ok colDefs =>
    Except.ok (("CREATE TABLE " ++ tableEscaped m ++ " (" ++ colDefs ++ ")")
      :: buildColumnIndexes m)

/-- `SQLite3.prototype._alterTable` (lib/migration.js:50-103) as the
statement sequence its `async.series` executes when every step succeeds.
The source's local names are kept: `oldName` is `escape(model)` — the
original table name, which after the rename denotes the freshly created
table — and `newName` is `escape(model + \x27_old\x27)`, the temporary
name holding the old data.  `copyRecords` joins the **current** model's
property names (`Object.keys` declaration order), escaped, as the SELECT
list. -/
def alterTablePlan (m : ModelDef) : Except String (List String) :=
  let oldName := escapeLower m.name
  let newName := escapeLower (m.name ++ "_old")
  let renameOldTable := "ALTER TABLE " ++ oldName ++ " RENAME TO " ++ newName
  let copyRecords := "INSERT INTO " ++ oldName ++ " SELECT "
    ++ joinWith "," ((m.properties.map Prod.fst).map escapeLower)
    ++ " FROM " ++ newName
  let dropOldTable := "DROP TABLE " ++ newName
  match createTableStatements m with
  | Except.error e => Except.error e
  | Except.ok createStmts =>
    Except.ok (renameOldTable :: createStmts ++ [copyRecords, dropOldTable])

/-- A plain Date-typed property descriptor. -/
def dateProp : Property := { typeName := "Date" }

/-- A plain Boolean-typed property descriptor. -/
def boolProp : Property := { typeName := "Boolean" }

/-- A Number-typed identifier (primary-key) property descriptor. -/
def numberIdProp : Property := { typeName := "Number", id := true }

/-- A Date-typed property carrying the given `sqlite3.dbDefault` literal. -/
def dateDefaultProp (v : JsVal) : Property :=
  { typeName := "Date", sqlite3 := some { dbDefault := some v } }

/-- A Boolean-typed property carrying the given `sqlite3.dbDefault`
literal. -/
def boolDefaultProp (v : JsVal) : Property :=
  { typeName := "Boolean", sqlite3 := some { dbDefault := some v } }

/-- A small concrete model: an auto-increment integer id and a required,
indexed string column. -/
def demoModel : ModelDef :=
  { name := "UserData",
    properties := [("id", { typeName := "Number", id := true }),
                   ("email", { typeName := "String", required := true, index := true })] }

theorem dbName_eq (n : String) : dbName n = jsToLower n := by
  unfold dbName
  by_cases h : n = ""
  · subst h; rfl
  · simp [h]

/-- Claim C1 (confirmed): for a model whose table is already present, the
alteration executes exactly: rename the live table to `<model>_old`
(lower-cased, escaped), create a fresh table under the original name from
the current model definition, copy rows with an INSERT INTO the
original-name (new) table SELECT-ing the current model's property list in
declaration order FROM the renamed old table, then drop the old table;
the copy's column list comes from the current model definition only. -/
theorem c1_alter_table_sequence (m : ModelDef) (colDefs : String)
    (h : buildColumnDefinitions m = Except.ok colDefs) :
    alterTablePlan m = Except.ok (
      ("ALTER TABLE " ++ escapeName (jsToLower m.name) ++ " RENAME TO "
        ++ escapeName (jsToLower (m.name ++ "_old")))
      :: (("CREATE TABLE " ++ escapeName (jsToLower m.name) ++ " (" ++ colDefs ++ ")")
          :: buildColumnIndexes m)
      ++ [ "INSERT INTO " ++ escapeName (jsToLower m.name) ++ " SELECT "
             ++ joinWith "," (m.properties.map (fun pr => escapeName (jsToLower pr.1)))
             ++ " FROM " ++ escapeName (jsToLower (m.name ++ "_old")),
           "DROP TABLE " ++ escapeName (jsToLower (m.name ++ "_old")) ]) := by
  unfold alterTablePlan createTableStatements
  rw [h]
  unfold tableEscaped
  rw [dbName_eq, List.map_map]
  rfl

/-- Witness for C1 at a concrete two-property model. -/
theorem c1_alter_table_sequence_witness :
    alterTablePlan demoModel = Except.ok [
      "ALTER TABLE \"userdata\" RENAME TO \"userdata_old\"",
      "CREATE TABLE \"userdata\" (\"id\" INTEGER NOT NULL PRIMARY KEY,\"email\" TEXT NOT NULL)",
      "CREATE INDEX IF NOT EXISTS \"userdata_email\" ON \"userdata\" (\"email\")",
      "INSERT INTO \"userdata\" SELECT \"id\",\"email\" FROM \"userdata_old\"",
      "DROP TABLE \"userdata_old\"" ] := by
  have h := c1_alter_table_sequence demoModel
    "\"id\" INTEGER NOT NULL PRIMARY KEY,\"email\" TEXT NOT NULL" (by rfl)
  exact h

/-- Claim C2 (code bug): the claim says a Date-typed `toColumnValue` maps a
numeric value to that number, a string parsing as a calendar date to its
epoch milliseconds, and a non-parsing string to `InvalidParam`.  The code
has the `isValid()` test inverted: the numeric case holds, but the
parseable string "2015-03-25" yields the `InvalidParam` (with a message
copied from the JSON branch) and the unparseable string yields the number
`NaN` (`moment(...).unix() * 1000` on an invalid parse). -/
theorem c2_date_to_column_value_inverted :
    toColumnValue (some dateProp) (JsVal.num 1427241600000) = JsVal.num 1427241600000
    ∧ toColumnValue (some dateProp) (JsVal.str "2015-03-25")
        = JsVal.invalidP "SQLITE3: Invalid JSON: 2015-03-25"
    ∧ toColumnValue (some dateProp) (JsVal.str "not-a-date") = JsVal.nan :=
  ⟨rfl, rfl, rfl⟩

/-- Claim C3 counterexample: for a primary-key (identifier) property the
live connector still returns storage NULL for a null value — there is no
use-default/auto-generated-value marker (that behaviour exists only in the
legacy connector variant). -/
theorem c3_id_null_counterexample :
    toColumnValue (some numberIdProp) JsVal.null = JsVal.null := rfl

/-- Claim C3 as amended: `toColumnValue` maps a loosely-null (null or
absent) value to storage NULL for every property descriptor and for the
no-descriptor case, including primary-key and auto-increment properties. -/
theorem c3_null_maps_to_storage_null (property : Option Property) (value : JsVal)
    (h : jsEqNull value = true) :
    toColumnValue property value = JsVal.null := by
  unfold toColumnValue
  simp [h]

/-- Witness for the amended C3 at a concrete input. -/
theorem c3_null_maps_to_storage_null_witness :
    toColumnValue none JsVal.undefined = JsVal.null :=
  c3_null_maps_to_storage_null none JsVal.undefined rfl

/-- Claim C4 (code bug): `escapeName` is claimed to double internal double
quotes; the source computes `name.replace(/["]/g, two quotes)` but
discards the result, so the quote in `a"b` is not doubled — unlike the
legacy `escapeIdentifier`, which doubles it. -/
theorem c4_escape_name_quote_not_doubled :
    escapeName "a\"b" = "\"a\"b\"" ∧ escapeIdentifier "a\"b" = "\"a\"\"b\"" :=
  ⟨rfl, rfl⟩

/-- Claim C5 counterexample: the claim says an unparseable Date default
string errors with "Invalid date default" and a parseable one falls
through with no DEFAULT clause; the code does the opposite — the
unparseable string produces the clause ` DEFAULT NaN` (no error) and the
parseable string produces the error. -/
theorem c5_date_default_counterexample :
    getDefaultClause (some (dateDefaultProp (JsVal.str "not-a-date")))
      = Except.ok " DEFAULT NaN"
    ∧ getDefaultClause (some (dateDefaultProp (JsVal.str "2015-03-25")))
      = Except.error "Invalid date default: 2015-03-25" :=
  ⟨rfl, rfl⟩

/-- Claim C5 as amended: in `_getDefaultClause` for a Date-typed property,
the literal "now" produces the epoch-millisecond backend expression; a
numeric (non-NaN) literal produces ` DEFAULT <value>` as-is; a non-numeric
string that does **not** parse as a calendar date produces the clause
` DEFAULT NaN` (the invalid parse's `unix()` is NaN); and a non-numeric
string that parses successfully produces the error
"Invalid date default". -/
theorem c5_date_default_amended :
    getDefaultClause (some (dateDefaultProp (JsVal.str "now")))
      = Except.ok " DEFAULT (CAST(STRFTIME(\x27%s\x27, \x27now\x27) AS INTEGER)*1000)"
    ∧ (∀ v : JsVal, jsTruthy v = true → v ≠ JsVal.str "now" → jsIsNaN v = false →
        getDefaultClause (some (dateDefaultProp v))
          = Except.ok (" DEFAULT " ++ jsToString v))
    ∧ (∀ s : String, s ≠ "now" → jsIsNaN (JsVal.str s) = true → momentParse s = none →
        getDefaultClause (some (dateDefaultProp (JsVal.str s)))
          = Except.ok " DEFAULT NaN")
    ∧ (∀ s : String, s ≠ "now" → jsIsNaN (JsVal.str s) = true →
        (momentParse s).isSome = true →
        getDefaultClause (some (dateDefaultProp (JsVal.str s)))
          = Except.error ("Invalid date default: " ++ s)) := by
  refine ⟨rfl, ?_, ?_, ?_⟩
  · intro v ht hne hnan
    simp [getDefaultClause, dateDefaultProp, ht, hne, hnan]
  · intro s hne hnan hmp
    have hs : s ≠ "" := fun he => by subst he; exact absurd hnan (by decide)
    have ht : jsTruthy (JsVal.str s) = true := by simp [jsTruthy, hs]
    simp [getDefaultClause, dateDefaultProp, ht, hne, hnan, hmp]
  · intro s hne hnan hsome
    obtain ⟨k, hk⟩ := Option.isSome_iff_exists.mp hsome
    have hs : s ≠ "" := fun he => by subst he; exact absurd hnan (by decide)
    have ht : jsTruthy (JsVal.str s) = true := by simp [jsTruthy, hs]
    simp [getDefaultClause, dateDefaultProp, ht, hne, hnan, hk]

/-- Witness for the amended C5 at concrete inputs. -/
theorem c5_date_default_amended_witness :
    getDefaultClause (some (dateDefaultProp (JsVal.num 5))) = Except.ok " DEFAULT 5"
    ∧ getDefaultClause (some (dateDefaultProp (JsVal.str "garbage")))
        = Except.ok " DEFAULT NaN"
    ∧ getDefaultClause (some (dateDefaultProp (JsVal.str "1999-12-31")))
        = Except.error "Invalid date default: 1999-12-31" :=
  ⟨c5_date_default_amended.2.1 (JsVal.num 5) (by decide) (by decide) (by decide),
   c5_date_default_amended.2.2.1 "garbage" (by decide) (by decide) (by rfl),
   c5_date_default_amended.2.2.2 "1999-12-31" (by decide) (by decide) (by rfl)⟩

/-- Claim C6 (code bug): the claim says an invalid Boolean default makes
`_getDefaultClause` return an error value with no DEFAULT clause text.
`_convertBoolean` does build an `Error`, but the source computes
`'DEFAULT ' + _convertBoolean(value)`, so the Error object is string-
coerced into an `ok` clause and the caller's `instanceof Error` check
never fires. -/
theorem c6_boolean_default_not_loud :
    getDefaultClause (some (boolDefaultProp (JsVal.str "z")))
      = Except.ok "DEFAULT Error: SQLITE3: Invalid boolean default: z" := rfl

/-- Claim C7 (confirmed): with no explicit column-type override, the
inferred SQL column type is INTEGER for identifier Numbers, REAL for other
Numbers, INTEGER for Boolean and Date, and TEXT for every other type
name. -/
theorem c7_column_type_inference (p : Property) :
    buildColumnType p =
      (if p.typeName = "Number" then (if p.id then "INTEGER" else "REAL")
       else if p.typeName = "Boolean" ∨ p.typeName = "Date" then "INTEGER"
       else "TEXT") := by
  unfold buildColumnType
  by_cases h1 : p.typeName = "Number"
  · simp [h1]
  · by_cases h2 : p.typeName = "Boolean"
    · simp [h1, h2]
    · by_cases h3 : p.typeName = "Date"
      · simp [h1, h2, h3]
      · simp only [if_neg h1, if_neg h2, if_neg h3,
          if_neg (fun hor => Or.elim hor h2 h3)]
        repeat' split
        all_goals rfl

/-- Claim C8 (confirmed): the Boolean round-trip
`fromColumnValue ∘ toColumnValue` yields `true` for each of
1, true, "T", "y" and `false` for each of 0, false, "F", "n". -/
theorem c8_boolean_roundtrip :
    (fromColumnValue (some boolProp) (toColumnValue (some boolProp) (JsVal.num 1))
       = JsVal.bool true)
    ∧ (fromColumnValue (some boolProp) (toColumnValue (some boolProp) (JsVal.bool true))
       = JsVal.bool true)
    ∧ (fromColumnValue (some boolProp) (toColumnValue (some boolProp) (JsVal.str "T"))
       = JsVal.bool true)
    ∧ (fromColumnValue (some boolProp) (toColumnValue (some boolProp) (JsVal.str "y"))
       = JsVal.bool true)
    ∧ (fromColumnValue (some boolProp) (toColumnValue (some boolProp) (JsVal.num 0))
       = JsVal.bool false)
    ∧ (fromColumnValue (some boolProp) (toColumnValue (some boolProp) (JsVal.bool false))
       = JsVal.bool false)
    ∧ (fromColumnValue (some boolProp) (toColumnValue (some boolProp) (JsVal.str "F"))
       = JsVal.bool false)
    ∧ (fromColumnValue (some boolProp) (toColumnValue (some boolProp) (JsVal.str "n"))
       = JsVal.bool false) := by
  decide

/-- Claim C9 (confirmed): after `executeSQL`'s sanitizing loop, the
parameter list actually bound to the backend contains no `InvalidParam`
sentinel. -/
theorem c9_executesql_params_sanitized (params : List JsVal) :
    (executeSQLParams params).all (fun v => !(isInvalidParam v)) = true := by
  induction params with
  | nil => rfl
  | cons p rest ih =>
    cases p <;> simpa [executeSQLParams, isInvalidParam] using ih

/-- Claim C10 (confirmed): `fromColumnValue` applied to a stored NULL
returns null unchanged for every property descriptor and for the
no-descriptor case — no coercion is applied. -/
theorem c10_from_column_value_null_passthrough (property : Option Property) :
    fromColumnValue property JsVal.null = JsVal.null := by
  unfold fromColumnValue
  simp

end LBSqlite3
